import Mathlib

/-!
Verification of the Pootle bootstrap and runtime-mode control path
(`pootle/runner.py`).

The Python module is shallowly embedded: each function of the source is
translated into a pure Lean function.  Interaction with the outside world
is made explicit:

* the filesystem is a list of paths that exist (`fs : List String`);
* the process environment is an association list (`List (String × String)`)
  looked up front-to-back, as `os.environ` has unique keys;
* interactive answers (`input(...)`) are passed in as a string argument;
* an optional injected `PyError` stands for the exception the underlying
  file read/write would raise;
* every observable side effect (existence check, prompt, print, directory
  creation, file read/write) is recorded, in program order, in a trace of
  events, so that statements about what happens "before" an abort are
  statements about the trace.
-/

/-- A single quote character, `'`, as a one-character string. -/
def sglq : String := String.singleton (Char.ofNat 39)

/-- Python `repr` of a string as used by the `%r` conversions in
`runner.py` (the paths involved contain no characters needing escapes). -/
def pyRepr (s : String) : String := sglq ++ s ++ sglq

/-- A quoted literal `'s'`, the `"'%s'" % s` rendering of `init_settings`. -/
def quoteLit (s : String) : String := sglq ++ s ++ sglq

/-- Python `s or d` for strings: the empty string is falsy. -/
def pyOr (s d : String) : String := if s = "" then d else s

/-- Python `str.lower`, used on the overwrite-prompt answer. -/
def pyLower (s : String) : String := String.mk (s.data.map Char.toLower)

/-- Python `str.upper`, used to build the settings env-var name. -/
def pyUpper (s : String) : String := String.mk (s.data.map Char.toUpper)

/-- Python `os.environ.get(k, None)`: first binding of `k`, if any. -/
def envGet : List (String × String) → String → Option String
  | [], _ => none
  | (a, b) :: rest, k => if a = k then some b else envGet rest k

/-- Python `os.environ.setdefault(k, v)`: bind `k` to `v` only when `k`
is absent; a present binding (even to the empty string) is kept. -/
def envSetdefault (env : List (String × String)) (k v : String) :
    List (String × String) :=
  match envGet env k with
  | some _ => env
  | none => env ++ [(k, v)]

/-- Python truthiness of the result of `os.environ.get(k, None)`:
`None` and the empty string are falsy. -/
def truthyStr : Option String → Bool
  | none => false
  | some s => ¬ s = ""

/-- Model of `os.path.expanduser` for `~` and `~/rest`; other paths are
returned unchanged (the `~user` form depends on the user database and is
not exercised by any claim). -/
def expanduser (home p : String) : String :=
  if p = "~" then home
  else
    match p.data with
    | c1 :: c2 :: _ => if c1 = Char.ofNat 126 ∧ c2 = Char.ofNat 47
                       then home ++ String.mk (p.data.drop 1) else p
    | _ => p

/-- Index of the last `/` in a character list, if any. -/
def lastSlashIdx : List Char → Option Nat
  | [] => none
  | c :: cs =>
    match lastSlashIdx cs with
    | some i => some (i + 1)
    | none => if c = Char.ofNat 47 then some 0 else none

/-- Drop the trailing slashes of a character list. -/
def dropTrailingSlashes (cs : List Char) : List Char :=
  (cs.reverse.dropWhile (fun c => c = Char.ofNat 47)).reverse

/-- Model of `posixpath.dirname`: the text up to and including the last
slash, with trailing slashes stripped unless the head is all slashes. -/
def posixDirname (p : String) : String :=
  let cs := p.data
  match lastSlashIdx cs with
  | none => ""
  | some i =>
    let head := cs.take (i + 1)
    if head ≠ [] ∧ ¬ head.all (fun c => c = Char.ofNat 47)
    then String.mk (dropTrailingSlashes head)
    else String.mk head

/-- A Python exception: its class name, message, and (for an exception
raised inside an `except` block) the class and message of the exception
being handled, attached implicitly as `__context__` by Python 3's
exception chaining. -/
structure PyError where
  cls : String
  msg : String
  context : Option (String × String) := none
deriving DecidableEq, Repr

/-- Exception classes matched by the `except (IOError, OSError)` clause
of `init_command` (`IOError` is an alias of `OSError`; the others are its
common subclasses raised by `open`/`read`/`write`/`makedirs`). -/
def caughtByInitExcept (cls : String) : Bool :=
  cls ∈ (["IOError", "OSError", "FileNotFoundError", "PermissionError",
          "IsADirectoryError"] : List String)

/-- The placeholder values substituted into the settings template by
`init_settings` (the `context` dict of the source).  `default_key` is the
quoted base64 text of the freshly generated secret; the secret bytes
themselves come from `os.urandom` and are passed in as a parameter. -/
structure DbContext where
  default_key : String
  db_engine : String
  db_name : String
  db_user : String
  db_password : String
  db_host : String
  db_port : String
deriving DecidableEq, Repr

/-- Observable side effects of the `init` path, in program order. -/
inductive FsEvent where
  | existsCheck (path : String)
  | promptUser (msg : String)
  | printMsg (msg : String)
  | makeDirs (dir : String)
  | fileRead (path : String)
  | fileWrite (path : String)
deriving DecidableEq, Repr

/-- How an `init` invocation ends. -/
inductive Outcome where
  /-- `exit(n)` / `sys.exit(n)` was called. -/
  | exited (code : Nat)
  /-- `management.CommandError` was raised (the spec's `InvalidArgument`). -/
  | commandError (msg : String)
  /-- some other exception escaped. -/
  | raised (e : PyError)
  /-- normal completion; carries the rendered template context. -/
  | ok (ctx : DbContext)
deriving DecidableEq, Repr

/-- The `db_module` dictionary of `init_settings`; `none` models the
`KeyError` an unknown kind would raise at the lookup. -/
def db_module : String → Option String
  | "sqlite" => some "sqlite3"
  | "mysql" => some "mysql"
  | "postgresql" => some "postgresql_psycopg2"
  | _ => none

/-- The pure rendering part of `init_settings` (source lines 67-92): the
kind-dependent quoting/defaulting of the connection parameters and the
engine lookup, producing the placeholder `context`. -/
def init_settings_render (db db_name db_user db_password db_host db_port
    secret : String) : Option DbContext :=
  match db_module db with
  | none => none
  | some m =>
    if db = "sqlite" then
      some { default_key := quoteLit secret,
             db_engine := quoteLit ("transaction_hooks.backends." ++ m),
             db_name := "working_path(" ++
                        quoteLit (pyOr db_name "dbs/pootle.db") ++ ")",
             db_user := quoteLit "", db_password := quoteLit "",
             db_host := quoteLit "", db_port := quoteLit "" }
    else
      some { default_key := quoteLit secret,
             db_engine := quoteLit ("transaction_hooks.backends." ++ m),
             db_name := quoteLit (pyOr db_name "pootledb"),
             db_user := quoteLit (pyOr db_user "pootle"),
             db_password := quoteLit db_password,
             db_host := quoteLit db_host,
             db_port := quoteLit db_port }

/-- `init_settings`: create the missing parent directory of the target,
render the context, then read the template and write the target.
`ioFault`, when present, is the `IOError`/`OSError` the read/write stage
raises; it propagates out of this function uncaught. -/
def init_settings (settings_filepath template_filename : String)
    (db db_name db_user db_password db_host db_port secret : String)
    (fs : List String) (ioFault : Option PyError) :
    List FsEvent × Except PyError DbContext :=
  let dn := posixDirname settings_filepath
  let mkEvents : List FsEvent :=
    if dn ≠ "" ∧ ¬ fs.contains dn then [FsEvent.makeDirs dn] else []
  match ioFault with
  | some e => (mkEvents, Except.error e)
  | none =>
    match init_settings_render db db_name db_user db_password db_host
        db_port secret with
    | none => (mkEvents, Except.error { cls := "KeyError", msg := db })
    | some ctx =>
      (mkEvents ++ [FsEvent.fileRead template_filename,
                    FsEvent.fileWrite settings_filepath],
       Except.ok ctx)

/-- The arguments `init_command`'s parser produces.  The parser registers
`--db`, `--db-name`, `--db-user`, `--db-host` and `--db-port` (and inherits
`--config` and `--noinput`); it registers no password flag, so the record
has no password field. -/
structure InitArgs where
  db : String := "sqlite"
  db_name : String := ""
  db_user : String := ""
  db_host : String := ""
  db_port : String := ""
  config : String := "~/.pootle/pootle.conf"
  noinput : Bool := false
deriving DecidableEq, Repr

/-- The `management.CommandError` message for an unrecognised `--db`. -/
def unrecognised_db_msg (db : String) : String :=
  "Unrecognised database " ++ sglq ++ db ++ sglq ++ ": should be one of " ++
  sglq ++ "sqlite" ++ sglq ++ ", " ++ sglq ++ "mysql" ++ sglq ++ " or " ++
  sglq ++ "postgresql" ++ sglq

/-- The confirmation message printed when `init` is run for a
non-sqlite backend. -/
def password_reminder_msg (config_path : String) : String :=
  "Configuration file created at " ++ pyRepr config_path ++
  ". Your database password is not currently set . You may want to " ++
  "update the database settings now"

/-- `init_command` after the overwrite gate (source lines 141-159):
validate the database kind, call `init_settings` with the password
argument omitted (so it keeps its `""` default), wrap any
`IOError`/`OSError` into a fresh exception of the same class whose
message names the destination path (the original travels along as the
implicit `__context__`), and print the success message. -/
def init_command_after_gate (config_path : String) (evs : List FsEvent)
    (a : InitArgs) (fs : List String) (secret template : String)
    (ioFault : Option PyError) : List FsEvent × Outcome :=
  if a.db ∈ (["mysql", "postgresql", "sqlite"] : List String) then
    match init_settings config_path template a.db a.db_name a.db_user ""
        a.db_host a.db_port secret fs ioFault with
    | (sevs, Except.error e) =>
      if caughtByInitExcept e.cls then
        (evs ++ sevs,
         Outcome.raised
           { cls := e.cls,
             msg := "Unable to write default settings file to " ++
                    pyRepr config_path,
             context := some (e.cls, e.msg) })
      else (evs ++ sevs, Outcome.raised e)
    | (sevs, Except.ok ctx) =>
      if a.db = "mysql" ∨ a.db = "postgresql" then
        (evs ++ sevs ++ [FsEvent.printMsg (password_reminder_msg config_path)],
         Outcome.ok ctx)
      else
        (evs ++ sevs ++
           [FsEvent.printMsg ("Configuration file created at " ++
                              pyRepr config_path)],
         Outcome.ok ctx)
  else (evs, Outcome.commandError (unrecognised_db_msg a.db))

/-- `init_command` (source lines 99-159).  `home` feeds `expanduser`,
`fs` is the set of existing paths, `userResp` the answer `input` would
return, `secret` the base64 text of the generated key, `template` the
template path, `ioFault` the error injected at the read/write stage. -/
def init_command (home : String) (a : InitArgs) (fs : List String)
    (userResp secret template : String) (ioFault : Option PyError) :
    List FsEvent × Outcome :=
  let config_path := expanduser home a.config
  if fs.contains config_path then
    if a.noinput then
      ([FsEvent.existsCheck config_path,
        FsEvent.printMsg "File already exists, not overwriting."],
       Outcome.exited 2)
    else
      let promptMsg := "File already exists at " ++ pyRepr config_path ++
                       ", overwrite? [Ny] "
      let resp := pyLower userResp
      if resp = "y" ∨ resp = "yes" then
        init_command_after_gate config_path
          [FsEvent.existsCheck config_path, FsEvent.promptUser promptMsg]
          a fs secret template ioFault
      else
        ([FsEvent.existsCheck config_path, FsEvent.promptUser promptMsg,
          FsEvent.printMsg "File already exists, not overwriting."],
         Outcome.exited 2)
  else
    init_command_after_gate config_path [FsEvent.existsCheck config_path]
      a fs secret template ioFault

/-- Observable side effects of `set_sync_mode`, in program order. -/
inductive SyncEvent where
  | promptUser (msg : String)
  | printMsg (msg : String)
deriving DecidableEq, Repr

/-- How a `set_sync_mode` call ends.  Both constructors carry the final
state of `settings.RQ_QUEUES`, each queue reduced to its name and its
`ASYNC` flag; on `exited` the queues are those at the moment `exit(2)`
ran (the mutation loop is placed after the gate in the source). -/
inductive SyncOutcome where
  | exited (code : Nat) (queues : List (String × Bool))
  | proceeded (queues : List (String × Bool))
deriving DecidableEq, Repr

/-- The warning text of `set_sync_mode` (source lines 166-170). -/
def redis_warning : String :=
  "\nYou currently have RQ workers running.\n\n" ++
  "Running in synchronous mode may conflict with jobs " ++
  "that are dispatched to your workers.\n\n" ++
  "It is safer to stop any workers before using synchronous " ++
  "commands.\n\n"

/-- The loop `for q in settings.RQ_QUEUES.itervalues(): q[...] = False`:
every queue descriptor's `ASYNC` flag is set to `false`. -/
def setAllSync (qs : List (String × Bool)) : List (String × Bool) :=
  qs.map (fun q => (q.1, false))

/-- `set_sync_mode` (source lines 162-181).  `workersRunning` is the
value of the `rq_workers_are_running()` probe, `userResp` the answer
`input` would return (the source does not lowercase it here), `qs` the
queue descriptors of `settings.RQ_QUEUES`. -/
def set_sync_mode (workersRunning noinput : Bool) (userResp : String)
    (qs : List (String × Bool)) : List SyncEvent × SyncOutcome :=
  if workersRunning then
    if noinput then
      ([SyncEvent.printMsg ("Warning: " ++ redis_warning)],
       SyncOutcome.proceeded (setAllSync qs))
    else
      let promptMsg := redis_warning ++ "Do you wish to proceed? [Ny] "
      if userResp = "y" ∨ userResp = "yes" then
        ([SyncEvent.promptUser promptMsg],
         SyncOutcome.proceeded (setAllSync qs))
      else
        ([SyncEvent.promptUser promptMsg,
          SyncEvent.printMsg "RQ workers running, not proceeding."],
         SyncOutcome.exited 2 qs)
  else ([], SyncOutcome.proceeded (setAllSync qs))

/-- The diagnostic `configure_app` prints before `sys.exit(2)`. -/
def config_not_found_msg (config_path settings_envvar runner_name :
    String) : String :=
  "Configuration file does not exist at " ++ pyRepr config_path ++
  " or " ++ pyRepr settings_envvar ++
  " environment variable has not been set.\nUse " ++ sglq ++
  runner_name ++ " init" ++ sglq ++
  " to initialize the configuration file."

/-- `configure_app` (source lines 184-212).  `norm` abstracts
`os.path.normpath(os.path.abspath(os.path.expanduser(...)))`, which
depends on the working directory; `fs` is the set of existing paths.
`Except.error` carries the printed diagnostic and stands for
`sys.exit(2)`; `Except.ok` carries the environment after the two
`setdefault` calls. -/
def configure_app (project config_path django_settings_module
    runner_name : String) (norm : String → String) (fs : List String)
    (env : List (String × String)) :
    Except String (List (String × String)) :=
  let settings_envvar := pyUpper project ++ "_SETTINGS"
  let path := norm config_path
  if fs.contains path || truthyStr (envGet env settings_envvar) then
    Except.ok (envSetdefault
      (envSetdefault env settings_envvar path)
      "DJANGO_SETTINGS_MODULE" django_settings_module)
  else
    Except.error (config_not_found_msg path settings_envvar runner_name)

/-- True when configuration resolution terminates the process
(`sys.exit(2)` in the source). -/
def config_resolution_fails
    (r : Except String (List (String × String))) : Bool :=
  match r with
  | Except.error _ => true
  | Except.ok _ => false

/-- True when a trace contains no directory-creation and no file-write
event: the run left the filesystem unmodified. -/
def noMutationEvents (evs : List FsEvent) : Bool :=
  evs.all (fun e => match e with
    | FsEvent.makeDirs _ => false
    | FsEvent.fileWrite _ => false
    | _ => true)

/-! ### Helper lemmas -/

theorem setAllSync_mode (qs : List (String × Bool)) :
    ∀ q ∈ setAllSync qs, q.2 = false := by
  intro q hq
  rcases List.mem_map.mp hq with ⟨x, -, rfl⟩
  rfl

theorem envGet_append_single (env : List (String × String)) (k v k' : String) :
    envGet (env ++ [(k, v)]) k' =
      match envGet env k' with
      | some w => some w
      | none => if k = k' then some v else none := by
  induction env with
  | nil => rfl
  | cons p rest ih =>
    by_cases h : p.1 = k'
    · simp [envGet, h]
    · simp [envGet, h, ih]

theorem envGet_setdefault_same (env : List (String × String)) (k v : String) :
    envGet (envSetdefault env k v) k = some ((envGet env k).getD v) := by
  unfold envSetdefault
  cases h : envGet env k with
  | some w => simp [h]
  | none => rw [envGet_append_single, h]; simp

theorem envGet_setdefault_other (env : List (String × String))
    (k v k' : String) (h : k ≠ k') :
    envGet (envSetdefault env k v) k' = envGet env k' := by
  unfold envSetdefault
  cases hk : envGet env k with
  | some w => rfl
  | none =>
    rw [envGet_append_single]
    cases h' : envGet env k' with
    | some w => rfl
    | none => simp [h]

theorem append_settings_ne (x : String) :
    x ++ "_SETTINGS" ≠ "DJANGO_SETTINGS_MODULE" := by
  intro h
  have hd : (x ++ "_SETTINGS").data.getLast?
      = "DJANGO_SETTINGS_MODULE".data.getLast? := by rw [h]
  rw [String.data_append,
      List.getLast?_append_of_ne_nil _ (by decide :
        "_SETTINGS".data ≠ [])] at hd
  exact absurd hd (by decide)

theorem working_path_ne_quoteLit (s t : String) :
    "working_path(" ++ quoteLit s ++ ")" ≠ quoteLit t := by
  intro h
  have hd : ("working_path(" ++ quoteLit s ++ ")").data.head?
      = (quoteLit t).data.head? := by rw [h]
  simp only [quoteLit, sglq, String.data_append] at hd
  rw [(by decide : (String.singleton (Char.ofNat 39)).data
        = [Char.ofNat 39])] at hd
  simp only [List.cons_append, List.singleton_append, List.append_assoc,
             List.head?_cons] at hd
  exact absurd hd (by decide)

theorem truthyStr_eq_false (o : Option String) :
    truthyStr o = false ↔ (o = none ∨ o = some "") := by
  cases o with
  | none => simp [truthyStr]
  | some s => simp [truthyStr]

/-! ### Claims -/

/-- C4: forcing synchronous mode while the liveness probe reports live
workers, without the no-input flag, and with a non-affirmative
confirmation answer: the operation exits with code 2 and no queue
descriptor is mutated (every queue's `ASYNC` flag is unchanged). -/
theorem pootle_C4 (resp : String) (qs : List (String × Bool))
    (h : ¬ (resp = "y" ∨ resp = "yes")) :
    set_sync_mode true false resp qs
      = ([SyncEvent.promptUser (redis_warning ++
            "Do you wish to proceed? [Ny] "),
          SyncEvent.printMsg "RQ workers running, not proceeding."],
         SyncOutcome.exited 2 qs) := by
  simp [set_sync_mode, h]

/-- Witness for C4: a concrete declined confirmation. -/
theorem pootle_C4_witness :
    set_sync_mode true false "n" [("default", true)]
      = ([SyncEvent.promptUser (redis_warning ++
            "Do you wish to proceed? [Ny] "),
          SyncEvent.printMsg "RQ workers running, not proceeding."],
         SyncOutcome.exited 2 [("default", true)]) :=
  pootle_C4 "n" [("default", true)] (by decide)

/-- C5: forcing synchronous mode with the no-input flag set always
proceeds, for either probe answer, mutating every queue descriptor to
synchronous mode; no prompt is issued, and with live workers the warning
text is still printed. -/
theorem pootle_C5 (resp : String) (qs : List (String × Bool)) :
    set_sync_mode true true resp qs
      = ([SyncEvent.printMsg ("Warning: " ++ redis_warning)],
         SyncOutcome.proceeded (setAllSync qs))
    ∧ set_sync_mode false true resp qs
      = ([], SyncOutcome.proceeded (setAllSync qs))
    ∧ ∀ q ∈ setAllSync qs, q.2 = false :=
  ⟨rfl, rfl, setAllSync_mode qs⟩

/-- C10: when the liveness probe reports no live workers, forcing
synchronous mode issues no prompt and no warning (the event trace is
empty) and unconditionally sets every queue descriptor to synchronous
mode, for both values of the no-input flag. -/
theorem pootle_C10 (noinput : Bool) (resp : String)
    (qs : List (String × Bool)) :
    set_sync_mode false noinput resp qs
      = ([], SyncOutcome.proceeded (setAllSync qs))
    ∧ ∀ q ∈ setAllSync qs, q.2 = false :=
  ⟨rfl, setAllSync_mode qs⟩

/-- Counterexample to C3 as stated: with the environment variable set to
the empty string and a missing path, resolution still fails, although
the claim requires success whenever the variable is set.  (The source
tests `os.environ.get(var, None)` for truthiness, and the empty string
is falsy.) -/
theorem pootle_C3_counterexample :
    config_resolution_fails
      (configure_app "pootle" "/tmp/missing.conf" "pootle.settings"
        "pootle" id [] [("POOTLE_SETTINGS", "")]) = true
    ∧ envGet [("POOTLE_SETTINGS", "")] "POOTLE_SETTINGS" = some "" := by
  exact ⟨rfl, rfl⟩

/-- C3 (amended): configuration resolution fails (exit code 2) if and
only if the normalized, expanded path does not exist on disk and the
environment variable is unset **or set to the empty string**; otherwise
resolution succeeds. -/
theorem pootle_C3 (project config_path django_settings_module
    runner_name : String) (norm : String → String) (fs : List String)
    (env : List (String × String)) :
    config_resolution_fails
      (configure_app project config_path django_settings_module
        runner_name norm fs env) = true
    ↔ (fs.contains (norm config_path) = false
       ∧ (envGet env (pyUpper project ++ "_SETTINGS") = none
          ∨ envGet env (pyUpper project ++ "_SETTINGS") = some "")) := by
  unfold configure_app
  rw [← truthyStr_eq_false]
  cases hfs : fs.contains (norm config_path) with
  | true =>
    simp at hfs
    simp [hfs, config_resolution_fails]
  | false =>
    simp at hfs
    cases ht : truthyStr (envGet env (pyUpper project ++ "_SETTINGS")) with
    | true => simp [hfs, ht, config_resolution_fails]
    | false => simp [hfs, ht, config_resolution_fails]

/-- C8: successful resolution never overwrites a previously set value of
the settings environment variable, nor of the fixed settings-module
variable: after success each holds its prior value when one existed, and
the resolved path (resp. the default module) only when it was unset. -/
theorem pootle_C8 (project config_path django_settings_module
    runner_name : String) (norm : String → String) (fs : List String)
    (env env' : List (String × String))
    (h : configure_app project config_path django_settings_module
        runner_name norm fs env = Except.ok env') :
    envGet env' (pyUpper project ++ "_SETTINGS")
      = some ((envGet env (pyUpper project ++ "_SETTINGS")).getD
                (norm config_path))
    ∧ envGet env' "DJANGO_SETTINGS_MODULE"
      = some ((envGet env "DJANGO_SETTINGS_MODULE").getD
                django_settings_module) := by
  unfold configure_app at h
  dsimp only at h
  split at h
  · have henv : env' = envSetdefault
        (envSetdefault env (pyUpper project ++ "_SETTINGS")
          (norm config_path))
        "DJANGO_SETTINGS_MODULE" django_settings_module := by
      injection h with h'
      exact h'.symm
    subst henv
    have hne : "DJANGO_SETTINGS_MODULE" ≠ pyUpper project ++ "_SETTINGS" :=
      fun hc => append_settings_ne (pyUpper project) hc.symm
    constructor
    · rw [envGet_setdefault_other _ _ _ _ hne,
          envGet_setdefault_same]
    · rw [envGet_setdefault_same,
          envGet_setdefault_other _ _ _ _ (fun hc => hne hc.symm)]
  · exact absurd h (by simp)

/-- Witness for C8: a concrete successful resolution with the settings
variable pre-set; both variables end with the predicted values. -/
theorem pootle_C8_witness :
    envGet [("POOTLE_SETTINGS", "/etc/p.conf"),
            ("DJANGO_SETTINGS_MODULE", "pootle.settings")]
        (pyUpper "pootle" ++ "_SETTINGS")
      = some ((envGet [("POOTLE_SETTINGS", "/etc/p.conf")]
                 (pyUpper "pootle" ++ "_SETTINGS")).getD (id "/tmp/p.conf"))
    ∧ envGet [("POOTLE_SETTINGS", "/etc/p.conf"),
              ("DJANGO_SETTINGS_MODULE", "pootle.settings")]
        "DJANGO_SETTINGS_MODULE"
      = some ((envGet [("POOTLE_SETTINGS", "/etc/p.conf")]
                 "DJANGO_SETTINGS_MODULE").getD "pootle.settings") :=
  pootle_C8 "pootle" "/tmp/p.conf" "pootle.settings" "pootle" id []
    [("POOTLE_SETTINGS", "/etc/p.conf")]
    [("POOTLE_SETTINGS", "/etc/p.conf"),
     ("DJANGO_SETTINGS_MODULE", "pootle.settings")] (by rfl)

theorem after_gate_invalid_db (config_path : String) (evs : List FsEvent)
    (a : InitArgs) (fs : List String) (secret template : String)
    (fault : Option PyError)
    (hdb : a.db ∉ (["mysql", "postgresql", "sqlite"] : List String)) :
    init_command_after_gate config_path evs a fs secret template fault
      = (evs, Outcome.commandError (unrecognised_db_msg a.db)) := by
  unfold init_command_after_gate
  rw [if_neg hdb]

/-- C6: `init` on an existing target path with the no-input flag aborts
with exit code 2; the trace shows only the existence check and the
diagnostic print — no prompt, no directory creation, no write. -/
theorem pootle_C6 (home : String) (a : InitArgs) (fs : List String)
    (resp secret template : String) (fault : Option PyError)
    (hex : fs.contains (expanduser home a.config) = true)
    (hni : a.noinput = true) :
    init_command home a fs resp secret template fault
      = ([FsEvent.existsCheck (expanduser home a.config),
          FsEvent.printMsg "File already exists, not overwriting."],
         Outcome.exited 2) := by
  unfold init_command
  dsimp only
  rw [if_pos hex, if_pos hni]

/-- Witness for C6: a concrete `init --noinput` against an existing
path. -/
theorem pootle_C6_witness :
    init_command "/home/u"
        { db := "sqlite", db_name := "", db_user := "", db_host := "",
          db_port := "", config := "/etc/pootle.conf", noinput := true }
        ["/etc/pootle.conf"] "y" "key" "tmpl" none
      = ([FsEvent.existsCheck (expanduser "/home/u" "/etc/pootle.conf"),
          FsEvent.printMsg "File already exists, not overwriting."],
         Outcome.exited 2) :=
  pootle_C6 "/home/u"
    { db := "sqlite", db_name := "", db_user := "", db_host := "",
      db_port := "", config := "/etc/pootle.conf", noinput := true }
    ["/etc/pootle.conf"] "y" "key" "tmpl" none (by rfl) rfl

/-- Counterexample to C1 as stated: with an unrecognised database kind
and an existing target under no-input, the command does **not** fail
with `InvalidArgument` — it exits 2 at the overwrite gate, and the
target-path existence check has already run (it heads the trace). -/
theorem pootle_C1_counterexample :
    init_command "/home/u"
        { db := "oracle", db_name := "", db_user := "", db_host := "",
          db_port := "", config := "/etc/pootle.conf", noinput := true }
        ["/etc/pootle.conf"] "" "key" "tmpl" none
      = ([FsEvent.existsCheck "/etc/pootle.conf",
          FsEvent.printMsg "File already exists, not overwriting."],
         Outcome.exited 2) := by rfl

/-- C1 (amended): an invocation with a database kind outside the closed
set never creates a directory and never writes a file, and — whenever
the run reaches the validation, that is on a fresh target path, or on
an existing one through an affirmative overwrite confirmation — fails
with `InvalidArgument` (`CommandError`).  The target-path existence
check (and, on an existing path, the overwrite gate) runs before the
validation, not after it. -/
theorem pootle_C1 (home : String) (a : InitArgs) (fs : List String)
    (resp secret template : String) (fault : Option PyError)
    (hdb : a.db ∉ (["mysql", "postgresql", "sqlite"] : List String)) :
    noMutationEvents
        (init_command home a fs resp secret template fault).1 = true
    ∧ (fs.contains (expanduser home a.config) = false →
        init_command home a fs resp secret template fault
          = ([FsEvent.existsCheck (expanduser home a.config)],
             Outcome.commandError (unrecognised_db_msg a.db)))
    ∧ (fs.contains (expanduser home a.config) = true →
        a.noinput = false →
        (pyLower resp = "y" ∨ pyLower resp = "yes") →
        init_command home a fs resp secret template fault
          = ([FsEvent.existsCheck (expanduser home a.config),
              FsEvent.promptUser
                ("File already exists at " ++
                 pyRepr (expanduser home a.config) ++
                 ", overwrite? [Ny] ")],
             Outcome.commandError (unrecognised_db_msg a.db))) := by
  unfold init_command
  dsimp only
  cases hex : fs.contains (expanduser home a.config) with
  | false =>
    rw [if_neg (by decide : ¬ (false = true)),
        after_gate_invalid_db _ _ _ _ _ _ _ hdb]
    exact ⟨rfl, fun hc => rfl, fun hc => Bool.noConfusion hc⟩
  | true =>
    rw [if_pos (rfl : true = true)]
    cases hni : a.noinput with
    | true =>
      rw [if_pos (rfl : true = true)]
      exact ⟨rfl, fun hc => Bool.noConfusion hc,
             fun _ hn => Bool.noConfusion hn⟩
    | false =>
      rw [if_neg (by decide : ¬ (false = true))]
      by_cases hresp : pyLower resp = "y" ∨ pyLower resp = "yes"
      · rw [if_pos hresp, after_gate_invalid_db _ _ _ _ _ _ _ hdb]
        exact ⟨rfl, fun hc => Bool.noConfusion hc, fun _ _ _ => rfl⟩
      · rw [if_neg hresp]
        exact ⟨rfl, fun hc => Bool.noConfusion hc,
               fun _ _ hr => absurd hr hresp⟩

/-- Witness for C1 (amended): a concrete invocation with an
unrecognised kind against an existing target; the affirmative branch of
the last conjunct applies and yields the `CommandError` after the
overwrite gate. -/
theorem pootle_C1_witness :
    noMutationEvents
        (init_command "/home/u"
          { db := "oracle", db_name := "", db_user := "", db_host := "",
            db_port := "", config := "/etc/p.conf", noinput := false }
          ["/etc/p.conf"] "Y" "key" "tmpl" none).1 = true
    ∧ ((["/etc/p.conf"] : List String).contains
          (expanduser "/home/u" "/etc/p.conf") = false →
        init_command "/home/u"
          { db := "oracle", db_name := "", db_user := "", db_host := "",
            db_port := "", config := "/etc/p.conf", noinput := false }
          ["/etc/p.conf"] "Y" "key" "tmpl" none
          = ([FsEvent.existsCheck (expanduser "/home/u" "/etc/p.conf")],
             Outcome.commandError (unrecognised_db_msg "oracle")))
    ∧ ((["/etc/p.conf"] : List String).contains
          (expanduser "/home/u" "/etc/p.conf") = true →
        ({ db := "oracle", db_name := "", db_user := "", db_host := "",
           db_port := "", config := "/etc/p.conf", noinput := false }
          : InitArgs).noinput = false →
        (pyLower "Y" = "y" ∨ pyLower "Y" = "yes") →
        init_command "/home/u"
          { db := "oracle", db_name := "", db_user := "", db_host := "",
            db_port := "", config := "/etc/p.conf", noinput := false }
          ["/etc/p.conf"] "Y" "key" "tmpl" none
          = ([FsEvent.existsCheck (expanduser "/home/u" "/etc/p.conf"),
              FsEvent.promptUser
                ("File already exists at " ++
                 pyRepr (expanduser "/home/u" "/etc/p.conf") ++
                 ", overwrite? [Ny] ")],
             Outcome.commandError (unrecognised_db_msg "oracle"))) :=
  pootle_C1 "/home/u"
    { db := "oracle", db_name := "", db_user := "", db_host := "",
      db_port := "", config := "/etc/p.conf", noinput := false }
    ["/etc/p.conf"] "Y" "key" "tmpl" none (by decide)

theorem init_command_gate_passed (home : String) (a : InitArgs)
    (fs : List String) (resp secret template : String)
    (fault : Option PyError)
    (hgate : fs.contains (expanduser home a.config) = false
             ∨ (a.noinput = false
                ∧ (pyLower resp = "y" ∨ pyLower resp = "yes"))) :
    ∃ evs, init_command home a fs resp secret template fault
      = init_command_after_gate (expanduser home a.config) evs a fs
          secret template fault := by
  unfold init_command
  dsimp only
  rcases hgate with hex | ⟨hni, hresp⟩
  · rw [if_neg (show ¬ (fs.contains (expanduser home a.config) = true)
        by rw [hex]; decide)]
    exact ⟨_, rfl⟩
  · cases hex : fs.contains (expanduser home a.config) with
    | false =>
      rw [if_neg (by decide : ¬ (false = true))]
      exact ⟨_, rfl⟩
    | true =>
      rw [if_pos (rfl : true = true), if_neg (by simp [hni]),
          if_pos hresp]
      exact ⟨_, rfl⟩

theorem after_gate_fault (config_path : String) (evs : List FsEvent)
    (a : InitArgs) (fs : List String) (secret template : String)
    (e : PyError)
    (hdb : a.db ∈ (["mysql", "postgresql", "sqlite"] : List String))
    (hcls : caughtByInitExcept e.cls = true) :
    (init_command_after_gate config_path evs a fs secret template
        (some e)).2
      = Outcome.raised
          { cls := e.cls,
            msg := "Unable to write default settings file to " ++
                   pyRepr config_path,
            context := some (e.cls, e.msg) } := by
  unfold init_command_after_gate init_settings
  rw [if_pos hdb]
  dsimp only
  rw [if_pos hcls]

/-- C2: when the file read/write stage of `init` raises an
`IOError`/`OSError`, the error surfaced to the caller is a fresh
exception of the same class whose message names the destination path
and which carries the original error as its chained context. -/
theorem pootle_C2 (home : String) (a : InitArgs) (fs : List String)
    (resp secret template : String) (e : PyError)
    (hdb : a.db ∈ (["mysql", "postgresql", "sqlite"] : List String))
    (hcls : caughtByInitExcept e.cls = true)
    (hgate : fs.contains (expanduser home a.config) = false
             ∨ (a.noinput = false
                ∧ (pyLower resp = "y" ∨ pyLower resp = "yes"))) :
    (init_command home a fs resp secret template (some e)).2
      = Outcome.raised
          { cls := e.cls,
            msg := "Unable to write default settings file to " ++
                   pyRepr (expanduser home a.config),
            context := some (e.cls, e.msg) } := by
  obtain ⟨evs, heq⟩ := init_command_gate_passed home a fs resp secret
    template (some e) hgate
  rw [heq]
  exact after_gate_fault _ evs a fs secret template e hdb hcls

/-- Witness for C2: a concrete `init --db=mysql` on a fresh path with a
failing write. -/
theorem pootle_C2_witness :
    (init_command "/home/u"
        { db := "mysql", db_name := "foo", db_user := "", db_host := "",
          db_port := "", config := "/tmp/new.conf", noinput := false }
        [] "" "key" "tmpl"
        (some { cls := "OSError", msg := "disk full" })).2
      = Outcome.raised
          { cls := "OSError",
            msg := "Unable to write default settings file to " ++
                   pyRepr (expanduser "/home/u" "/tmp/new.conf"),
            context := some ("OSError", "disk full") } :=
  pootle_C2 "/home/u"
    { db := "mysql", db_name := "foo", db_user := "", db_host := "",
      db_port := "", config := "/tmp/new.conf", noinput := false }
    [] "" "key" "tmpl" { cls := "OSError", msg := "disk full" }
    (by decide) (by decide) (Or.inl (by rfl))

/-- C7: for database kind sqlite the supplied user, password, host and
port are ignored — each rendered as the empty quoted literal — and the
database name is rendered as a working-path expression wrapping the
given name (default `dbs/pootle.db` when none is given), which is never
a quoted literal. -/
theorem pootle_C7 (db_name db_user db_password db_host db_port
    secret : String) :
    init_settings_render "sqlite" db_name db_user db_password db_host
        db_port secret
      = some { default_key := quoteLit secret,
               db_engine :=
                 quoteLit "transaction_hooks.backends.sqlite3",
               db_name := "working_path(" ++
                          quoteLit (pyOr db_name "dbs/pootle.db") ++ ")",
               db_user := quoteLit "", db_password := quoteLit "",
               db_host := quoteLit "", db_port := quoteLit "" }
    ∧ ∀ t, "working_path(" ++ quoteLit (pyOr db_name "dbs/pootle.db")
             ++ ")" ≠ quoteLit t :=
  ⟨rfl, fun t => working_path_ne_quoteLit _ t⟩

theorem render_ok_password (db db_name db_user db_host db_port
    secret : String) (ctx : DbContext)
    (h : init_settings_render db db_name db_user "" db_host db_port
        secret = some ctx) :
    ctx.db_password = quoteLit "" := by
  unfold init_settings_render at h
  split at h
  · exact absurd h (by simp)
  · split at h
    · injection h with h'
      subst h'
      rfl
    · injection h with h'
      subst h'
      rfl

theorem init_settings_ok_password (fp tf db dbn dbu dbh dbp
    secret : String) (fs : List String) (fault : Option PyError)
    (sevs : List FsEvent) (ctx : DbContext)
    (h : init_settings fp tf db dbn dbu "" dbh dbp secret fs fault
        = (sevs, Except.ok ctx)) :
    ctx.db_password = quoteLit "" := by
  unfold init_settings at h
  dsimp only at h
  split at h
  · simp at h
  · split at h
    · simp at h
    · rename_i ctx0 hrender
      have hc : ctx0 = ctx := by
        have h2 := congrArg Prod.snd h
        simpa using h2
      subst hc
      exact render_ok_password _ _ _ _ _ _ _ hrender

theorem after_gate_ok_password (config_path : String)
    (evs : List FsEvent) (a : InitArgs) (fs : List String)
    (secret template : String) (fault : Option PyError)
    (ctx : DbContext)
    (h : (init_command_after_gate config_path evs a fs secret template
        fault).2 = Outcome.ok ctx) :
    ctx.db_password = quoteLit "" := by
  unfold init_command_after_gate at h
  split at h
  · split at h
    · split at h <;> simp at h
    · rename_i sevs ctx0 heq
      split at h <;>
        (simp at h; subst h;
         exact init_settings_ok_password _ _ _ _ _ _ _ _ _ _ _ _ heq)
  · simp at h

/-- C9: the `init` CLI registers no password flag and forwards no
password to the settings generator, so every successful run renders the
password placeholder as the empty quoted literal, whatever the
command-line inputs (for mysql and postgresql in particular). -/
theorem pootle_C9 (home : String) (a : InitArgs) (fs : List String)
    (resp secret template : String) (fault : Option PyError)
    (ctx : DbContext)
    (h : (init_command home a fs resp secret template fault).2
        = Outcome.ok ctx) :
    ctx.db_password = quoteLit "" := by
  unfold init_command at h
  dsimp only at h
  split at h
  · split at h
    · simp at h
    · split at h
      · exact after_gate_ok_password _ _ _ _ _ _ _ _ h
      · simp at h
  · exact after_gate_ok_password _ _ _ _ _ _ _ _ h

/-- Witness for C9: a concrete successful `init --db=mysql` run; its
rendered password placeholder is the empty quoted literal. -/
theorem pootle_C9_witness :
    DbContext.db_password
        { default_key := quoteLit "key",
          db_engine := quoteLit "transaction_hooks.backends.mysql",
          db_name := quoteLit "pootledb",
          db_user := quoteLit "pootle",
          db_password := quoteLit "", db_host := quoteLit "",
          db_port := quoteLit "" }
      = quoteLit "" :=
  pootle_C9 "/home/u"
    { db := "mysql", db_name := "", db_user := "", db_host := "",
      db_port := "", config := "/tmp/new.conf", noinput := false }
    [] "" "key" "tmpl" none
    { default_key := quoteLit "key",
      db_engine := quoteLit "transaction_hooks.backends.mysql",
      db_name := quoteLit "pootledb",
      db_user := quoteLit "pootle",
      db_password := quoteLit "", db_host := quoteLit "",
      db_port := quoteLit "" }
    (by rfl)
